import Mathlib

/-!
# Verification of the sticker-bot conversion pipeline (src/bot.py)

A shallow embedding of the pure content of src/bot.py.  Python floats are
modelled exactly: every float produced by the code under study is a positive
normal IEEE-754 binary64 value, represented here as the rational it denotes,
with round-to-nearest-even performed explicitly.  Strings are modelled at the
character-list level (Python strings are sequences of code points, as are the
`data` lists of Lean strings).  The Telegram platform and the ffmpeg binary
are external capabilities: platform calls are modelled as an explicit record
of operations on an abstract state, and the ffmpeg scale filter by its
documented dimension arithmetic.
-/

namespace StickerBot

/-! ## Exact model of positive IEEE-754 binary64 arithmetic

The code computes `512.0 / max(w, h)` and `int(w * scale)`.  Both operands of
each operation are exactly representable (integers below 2^53, or a previous
result), and CPython performs correctly rounded binary64 division and
multiplication.  We therefore model each operation as: form the exact rational
result, then round it to the nearest binary64 value (ties to even).  The
rounding is only meaningful for positive values in the normal range, which is
the only range the code exercises. -/

/-- Round the nonnegative rational a/b to the nearest integer, ties to even. -/
def rne (a b : ℕ) : ℕ :=
  let q := a / b
  let r := a % b
  if 2 * r < b then q
  else if b < 2 * r then q + 1
  else if q % 2 = 0 then q else q + 1

/-- Structural-recursion floor-log2 (first argument is fuel, counting binary
digits; kernel-reducible, unlike the well-founded Nat.log2). -/
def log2F : ℕ → ℕ → ℕ
  | 0, _ => 0
  | f + 1, n => if 2 ≤ n then log2F f (n / 2) + 1 else 0

/-- Floor of the base-2 logarithm of num/den, as an integer.  Valid whenever
2^(-64) ≤ num/den < 2^4000, which covers the whole binary64 range; the fuel
4096 exceeds the bit length of every natural number arising there. -/
def floorLog2 (num den : ℕ) : ℤ :=
  (log2F 4096 (num * 2 ^ 64 / den) : ℤ) - 64

/-- A nonnegative binary64 value, represented exactly as a dyadic rational:
(m, k) denotes m / 2^k. -/
abbrev Dyadic := ℕ × ℕ

/-- The binary64 value nearest to num/den (num/den positive, within the
normal range): significand of 53 bits, round to nearest, ties to even.
With e = floor(log2 (num/den)), the rounded significand is
rne(num/den * 2^(52-e)) and the value is that times 2^(e-52). -/
def fl (num den : ℕ) : Dyadic :=
  if num = 0 then (0, 0) else
  let e : ℤ := floorLog2 num den
  if 0 ≤ 52 - e then
    (rne (num * 2 ^ (52 - e).toNat) den, (52 - e).toNat)
  else
    (rne num (den * 2 ^ (e - 52).toNat) * 2 ^ (e - 52).toNat, 0)

/-- Exactly computed product of a Python int and a float, rounded back to
binary64: CPython float multiplication is correctly rounded, and the int
operand (an image dimension, far below 2^53) converts exactly. -/
def flMulNat (n : ℕ) (q : Dyadic) : Dyadic := fl (n * q.1) (2 ^ q.2)

/-- Python float comparison x < 1.0 on the exact representation. -/
def flLtOne (q : Dyadic) : Prop := q.1 < 2 ^ q.2

instance (q : Dyadic) : Decidable (flLtOne q) := by unfold flLtOne; infer_instance

/-- Python int() on a nonnegative float: truncation = floor. -/
def pyTrunc (q : Dyadic) : ℕ := q.1 / 2 ^ q.2

/-! ## StaticImageConverter - image_to_sticker_webp (src/bot.py lines 92-102)

    w, h = im.size
    scale = 512.0 / max(w, h)
    if scale < 1.0:
        im = im.resize((int(w * scale), int(h * scale)), Image.LANCZOS)

The encoder preserves the pixel dimensions, so the output dimensions of the
converter are exactly the resize target (or the input size when no resize
happens). -/

/-- Output pixel dimensions of image_to_sticker_webp for a decoded input of
size w × h.  Each float operation is modelled exactly as described above. -/
def image_sticker_dims (w h : ℕ) : ℕ × ℕ :=
  let scale := fl 512 (Nat.max w h)
  if flLtOne scale then
    (pyTrunc (flMulNat w scale), pyTrunc (flMulNat h scale))
  else (w, h)

/-! ## AnimatedMediaConverter - video_to_sticker_webm (src/bot.py lines 116-140)

The transcoder command constructed by the source, verbatim. -/

/-- The argument list the source passes to subprocess.run (bot.py lines 124-135). -/
def ffmpeg_cmd (ffmpeg inPath outPath : String) : List String :=
  [ffmpeg, "-y",
   "-i", inPath,
   "-an",
   "-t", "3",
   "-vf", "scale='min(512,iw)':-2:force_original_aspect_ratio=decrease,fps=30",
   "-c:v", "libvpx-vp9",
   "-b:v", "420k",
   "-crf", "32",
   "-deadline", "realtime",
   outPath]

/-- av_rescale(a, b, c) in ffmpeg default rounding (nearest, ties away from
zero) for nonnegative arguments: round(a*b/c). -/
def avRescale (a b c : ℕ) : ℕ := (a * b + c / 2) / c

/-- Modelled from the ffmpeg scale-filter documentation, for the exact filter
string the source constructs: requested width is the expression min(512,iw),
requested height is -2 (computed from the input aspect ratio and rounded to a
multiple of 2), with force_original_aspect_ratio=decrease.  ffmpeg resolves
this as: w := min 512 iw; h := av_rescale(w, ih, iw*2)*2; then the decrease
option lowers each dimension to at most its aspect-preserving rescale of the
other.  Nothing in the filter bounds the output height by 512. -/
def ffmpegScaleOutput (iw ih : ℕ) : ℕ × ℕ :=
  let w := min 512 iw
  let h := avRescale w ih (iw * 2) * 2
  let tmpW := avRescale h iw ih
  let tmpH := avRescale w ih (iw * 2) * 2
  (min tmpW w, min tmpH h)

/-! ## String helpers modelling the Python string operations

Python strings are sequences of code points; we work on the data list of the
Lean string.  Python str.lower() is modelled by Char.toLower per character:
the two agree on ASCII, and every character this code lowers has already been
forced into [A-Za-z0-9_] by the preceding substitution. -/

/-- Python str.lower(), character-wise. -/
def pyLower (s : String) : String := ⟨s.data.map Char.toLower⟩

/-- Python str.isspace() for a single character - CPython's
Py_UNICODE_ISSPACE set: the ASCII whitespace 0x09-0x0D and 0x20, the
separators 0x1C-0x1F, NEL 0x85, NBSP 0xA0, and the Unicode space separators
U+1680, U+2000-U+200A, U+2028, U+2029, U+202F, U+205F, U+3000. -/
def pyIsSpace (c : Char) : Bool :=
  let n := c.toNat
  decide ((0x09 ≤ n ∧ n ≤ 0x0D) ∨ (0x1C ≤ n ∧ n ≤ 0x20) ∨ n = 0x85 ∨ n = 0xA0 ∨
    n = 0x1680 ∨ (0x2000 ≤ n ∧ n ≤ 0x200A) ∨ n = 0x2028 ∨ n = 0x2029 ∨
    n = 0x202F ∨ n = 0x205F ∨ n = 0x3000)

/-- Python str.strip() with no argument: drop leading and trailing characters
for which str.isspace() holds. -/
def pyStrip (s : String) : String :=
  ⟨((s.data.dropWhile pyIsSpace).reverse.dropWhile pyIsSpace).reverse⟩

/-- Python truthiness-based fallback x or d for strings: empty (falsy) and
None both select the default. -/
def pyOr (x : Option String) (d : String) : String :=
  match x with
  | none => d
  | some s => if s = "" then d else s

/-- Python len() of a string: number of code points. -/
def pyLen (s : String) : ℕ := s.data.length

/-! ## Config constants (src/bot.py lines 42-44) -/

def DEFAULT_EMOJI : String := "🧩"
def STATIC_SUFFIX : String := "_static"
def VIDEO_SUFFIX : String := "_video"

/-! ## sanitize_username (src/bot.py lines 54-57)

    if not username:
        return f"user{user_id}"
    return re.sub(r"[^a-zA-Z0-9_]", "_", username).lower()

re.sub with a single-character negated class replaces each character outside
the class by an underscore; Char.isAlphanum is exactly the ASCII class
[a-zA-Z0-9]. -/

def sanitize_username (username : String) (user_id : ℕ) : String :=
  if username = "" then "user" ++ toString user_id
  else pyLower ⟨username.data.map fun c => if c.isAlphanum || c == '_' then c else '_'⟩

/-! ## Sticker-set kind and naming (src/bot.py lines 144-155)

The source asserts kind ∈ {static, video}; the inductive type carries that
invariant. -/

inductive Kind where
  | static
  | video
deriving DecidableEq

/-- A Telegram user as the code reads it: username and first_name may be
missing (None) or empty, both falsy in Python. -/
structure UserT where
  username : Option String
  id : ℕ
  first_name : Option String

/-- set_name as computed at src/bot.py lines 152-154:
uname + suffix + "_by_" + bot username. -/
def set_name_of (u : UserT) (botUsername : String) (kind : Kind) : String :=
  let uname := sanitize_username (pyOr u.username "") u.id
  let suffix := if kind = Kind.static then STATIC_SUFFIX else VIDEO_SUFFIX
  uname ++ suffix ++ "_by_" ++ botUsername

/-- set_title as computed at src/bot.py line 155. -/
def set_title_of (u : UserT) (kind : Kind) : String :=
  (pyOr u.first_name "User") ++ "'s " ++
    (if kind = Kind.static then "Static" else "Video") ++ " Stickers"

/-! ## Caption → emoji binding (src/bot.py lines 239-240)

    caption = (update.message.caption or "").strip()
    emoji = caption if caption and len(caption) <= 10 else DEFAULT_EMOJI
-/

/-- The emoji (tag) bound to the produced sticker, from the raw message
caption. -/
def emoji_for (caption : Option String) : String :=
  let c := pyStrip (pyOr caption "")
  if c ≠ "" ∧ pyLen c ≤ 10 then c else DEFAULT_EMOJI

/-! ## Platform capability interface

The Telegram Bot API calls used by get_or_create_set, as a record of
state-transforming operations: each call returns its Python-level outcome (a
value, or a raised exception modelled as Except.error) together with the
platform state after the call.  An implementation of this record is one
behaviour of the platform (and of any concurrent actors folded into it). -/

deriving instance DecidableEq for Except

/-- An error raised by an outbound platform call. -/
inductive ApiError where
  | notFound
  | alreadyExists
  | other (msg : String)
deriving DecidableEq

/-- The result of get_sticker_set that the code inspects: the list of sticker
file_ids in order. -/
structure StickerSetInfo where
  stickers : List ℕ
deriving DecidableEq

structure PlatformOps (σ : Type) where
  getStickerSet : String → σ → Except ApiError StickerSetInfo × σ
  createNewStickerSet : String → String → Kind → σ → Except ApiError Unit × σ
  deleteStickerFromSet : ℕ → σ → Except ApiError Unit × σ

/-! ## get_or_create_set (src/bot.py lines 144-193)

The function splits at the source's try/except around the lookup: if the
lookup returns, the pair is returned with no further platform call; on any
exception the code falls through (except Exception: pass) into the creation
block, modelled by create_path. -/

/-- The creation block of get_or_create_set (src/bot.py lines 163-193):
create the set with a single placeholder sticker - the create call is NOT
wrapped in a try/except, so its failure propagates - then, inside a
try/except whose failure is only logged, re-fetch the set and delete the
first sticker (the placeholder) if any. -/
def create_path {σ : Type} (P : PlatformOps σ) (u : UserT) (botUsername : String)
    (kind : Kind) (st : σ) : Except ApiError (String × String) × σ :=
  let n := set_name_of u botUsername kind
  let t := set_title_of u kind
  match P.createNewStickerSet n t kind st with
  | (Except.error e, st2) => (Except.error e, st2)
  | (Except.ok _, st2) =>
    match P.getStickerSet n st2 with
    | (Except.error _, st3) => (Except.ok (n, t), st3)
    | (Except.ok stset, st3) =>
      match stset.stickers with
      | [] => (Except.ok (n, t), st3)
      | fid :: _ => (Except.ok (n, t), (P.deleteStickerFromSet fid st3).2)

/-- get_or_create_set: try the lookup and return immediately on success; on
any lookup exception, fall through to the creation block. -/
def get_or_create_set {σ : Type} (P : PlatformOps σ) (u : UserT)
    (botUsername : String) (kind : Kind) (st : σ) :
    Except ApiError (String × String) × σ :=
  let n := set_name_of u botUsername kind
  let t := set_title_of u kind
  match P.getStickerSet n st with
  | (Except.ok _, st1) => (Except.ok (n, t), st1)
  | (Except.error _, st1) => create_path P u botUsername kind st1

/-! ## A deterministic single-actor platform, with a call log

The platform state is the registry of sticker sets (name to file_id list)
plus a fresh-id counter; every call is recorded in a log.  get_sticker_set
succeeds exactly when the name exists; create_new_sticker_set fails with
alreadyExists when it does and otherwise registers the set holding one fresh
placeholder sticker; delete_sticker_from_set removes the file_id wherever it
occurs. -/

inductive CallEvt where
  | get (name : String)
  | create (name : String)
  | del (fid : ℕ)
deriving DecidableEq

structure PlatState where
  sets : List (String × List ℕ)
  nextId : ℕ
deriving DecidableEq

/-- Number of create-collection calls in a log. -/
def countCreates (log : List CallEvt) : ℕ :=
  log.countP fun e => match e with | CallEvt.create _ => true | _ => false

def honest : PlatformOps (PlatState × List CallEvt) where
  getStickerSet n p :=
    ((match p.1.sets.lookup n with
      | some fids => Except.ok ⟨fids⟩
      | none => Except.error ApiError.notFound),
     (p.1, p.2 ++ [CallEvt.get n]))
  createNewStickerSet n _t _k p :=
    if (p.1.sets.lookup n).isSome then
      (Except.error ApiError.alreadyExists, (p.1, p.2 ++ [CallEvt.create n]))
    else
      (Except.ok (),
       (⟨(n, [p.1.nextId]) :: p.1.sets, p.1.nextId + 1⟩, p.2 ++ [CallEvt.create n]))
  deleteStickerFromSet fid p :=
    (Except.ok (),
     (⟨p.1.sets.map fun e => (e.1, e.2.filter (· ≠ fid)), p.1.nextId⟩,
      p.2 ++ [CallEvt.del fid]))

/-- The platform as seen by the loser of a creation race for a name that did
not exist at lookup time: the lookup raises (not found), and by the time the
create call arrives a concurrent ensure has already registered the name, so
the create call raises the platform uniqueness conflict. -/
def raceLoser : PlatformOps Unit where
  getStickerSet _ _ := (Except.error ApiError.notFound, ())
  createNewStickerSet _ _ _ _ := (Except.error ApiError.alreadyExists, ())
  deleteStickerFromSet _ _ := (Except.ok (), ())

/-- A platform whose lookup fails with a transient network error and whose
create call reports a conflict in free text. -/
def flakyPlatform : PlatformOps Unit where
  getStickerSet _ _ := (Except.error (ApiError.other "network timeout"), ())
  createNewStickerSet _ _ _ _ := (Except.error (ApiError.other "conflict"), ())
  deleteStickerFromSet _ _ := (Except.ok (), ())

/-! ## tg_download_to_bytes (src/bot.py lines 59-88)

Every error bot.py raises itself is a RuntimeError carrying a message; the
error kinds of the program are distinguished by those messages. -/

/-- An exception raised by bot.py itself. -/
inductive BotError where
  | runtimeError (msg : String)
deriving DecidableEq

def unsupportedMediaMsg : String := "Unsupported message type."
def noMessageMsg : String := "No message to process."
def ffmpegMissingMsg : String :=
  "FFmpeg not found. Please install FFmpeg and ensure it's in PATH."

/-- A downloadable media object as the code uses it: its content and the
file_path Telegram reports for it. -/
structure TgFile where
  content : List ℕ
  file_path : String
deriving DecidableEq

/-- An inbound message payload. -/
structure Msg where
  photo : List TgFile
  animation : Option TgFile
  video : Option TgFile
  document : Option TgFile
  caption : Option String

/-- pathlib suffix: take the last path component (the name), find the last
dot at index i, and return the substring from i when 0 < i < len(name)-1,
else the empty string. -/
def pySuffix (p : String) : String :=
  let name := (p.data.reverse.takeWhile (· ≠ '/')).reverse
  if name.contains '.' then
    let extR := name.reverse.takeWhile (· ≠ '.')
    let i := name.length - 1 - extR.length
    if 0 < i ∧ 0 < extR.length then ⟨name.drop i⟩ else ""
  else ""

/-- Python falsy-string fallback s or d. -/
def pyOrS (s d : String) : String := if s = "" then d else s

/-- tg_download_to_bytes: pick the first present media field in the source's
order (photo, animation, video, document) and return its bytes and an
extension; raise RuntimeError on no message or unrecognized payload. -/
def tg_download_to_bytes (upd : Option Msg) : Except BotError (List ℕ × String) :=
  match upd with
  | none => Except.error (BotError.runtimeError noMessageMsg)
  | some m =>
    if m.photo ≠ [] then
      Except.ok ((m.photo.getLastD ⟨[], ""⟩).content, ".jpg")
    else match m.animation with
    | some f => Except.ok (f.content, ".gif")
    | none =>
      match m.video with
      | some f => Except.ok (f.content, pyOrS (pyLower (pySuffix f.file_path)) ".mp4")
      | none =>
        match m.document with
        | some f => Except.ok (f.content, pyOrS (pyLower (pySuffix f.file_path)) ".bin")
        | none => Except.error (BotError.runtimeError unsupportedMediaMsg)

/-! ## video_to_sticker_webm temp-resource discipline (src/bot.py lines 112-140)

The function first resolves the ffmpeg binary (ensure_ffmpeg, line 118) and
only then opens the scoped temporary directory; the tempfile.TemporaryDirectory
context manager removes the directory both when the body returns and when it
raises.  We model the filesystem effects as an explicit event trace. -/

inductive FsEvent where
  | mkTempDir (d : String)
  | writeFile (path : String)
  | readFile (path : String)
  | rmTempDir (d : String)
deriving DecidableEq

/-- Temp directories still on disk after a trace. -/
def liveDirs (tr : List FsEvent) : List String :=
  tr.foldl
    (fun acc e =>
      match e with
      | FsEvent.mkTempDir d => acc ++ [d]
      | FsEvent.rmTempDir d => acc.filter (· ≠ d)
      | _ => acc)
    []

/-- The context manager with tempfile.TemporaryDirectory() as td: create the
directory, run the body, and remove the directory whether the body returned
or raised - then propagate the body's outcome. -/
def withTempDir {α : Type} (body : String → Except BotError α × List FsEvent) :
    Except BotError α × List FsEvent :=
  let td := "tmpdir0"
  let (r, ev) := body td
  (r, [FsEvent.mkTempDir td] ++ ev ++ [FsEvent.rmTempDir td])

/-- The state of the execution environment the function consults: whether
shutil.which resolves ffmpeg, and the observable outcome of the subprocess
run (exit code, whether the output file exists, its bytes, stderr text). -/
structure TranscodeEnv where
  ffmpegFound : Bool
  returncode : ℤ
  outputExists : Bool
  output : List ℕ
  stderr : String

/-- video_to_sticker_webm: raise before any filesystem activity when ffmpeg
is not resolvable; otherwise write the input inside a scoped temp dir, run
the transcoder, raise on nonzero exit or missing output, else read the
output back. -/
def video_to_sticker_webm (env : TranscodeEnv) :
    Except BotError (List ℕ) × List FsEvent :=
  if env.ffmpegFound = false then
    (Except.error (BotError.runtimeError ffmpegMissingMsg), [])
  else
    withTempDir fun td =>
      let ev0 := [FsEvent.writeFile (td ++ "/in.bin")]
      if env.returncode ≠ 0 ∨ env.outputExists = false then
        (Except.error (BotError.runtimeError ("FFmpeg failed: " ++ env.stderr.take 500)),
         ev0)
      else
        (Except.ok env.output, ev0 ++ [FsEvent.readFile (td ++ "/out.webm")])

/-! ## Helper lemmas -/

/-- The spec's per-character sanitization rule: a character in [A-Za-z0-9_]
survives (lower-cased by the subsequent lowering), every other character
becomes an underscore. -/
def specNameChar (c : Char) : Char :=
  if ('A' ≤ c ∧ c ≤ 'Z') ∨ ('a' ≤ c ∧ c ≤ 'z') ∨ ('0' ≤ c ∧ c ≤ '9') ∨ c = '_'
  then c.toLower else '_'

theorem wordChar_iff (c : Char) :
    (c.isAlphanum || c == '_') = true ↔
    (('A' ≤ c ∧ c ≤ 'Z') ∨ ('a' ≤ c ∧ c ≤ 'z') ∨ ('0' ≤ c ∧ c ≤ '9') ∨ c = '_') := by
  simp only [Char.isAlphanum, Char.isAlpha, Char.isUpper, Char.isLower, Char.isDigit,
    Bool.or_eq_true, Bool.and_eq_true, decide_eq_true_eq, beq_iff_eq, Char.le_def,
    Char.ext_iff, ge_iff_le]
  have hA : 'A'.val = 65 := rfl
  have hZ : 'Z'.val = 90 := rfl
  have ha : 'a'.val = 97 := rfl
  have hz : 'z'.val = 122 := rfl
  have h0 : '0'.val = 48 := rfl
  have h9 : '9'.val = 57 := rfl
  rw [hA, hZ, ha, hz, h0, h9]
  tauto

theorem nameChar_agree (c : Char) :
    Char.toLower (if c.isAlphanum || c == '_' then c else '_') = specNameChar c := by
  unfold specNameChar
  by_cases h : ('A' ≤ c ∧ c ≤ 'Z') ∨ ('a' ≤ c ∧ c ≤ 'z') ∨ ('0' ≤ c ∧ c ≤ '9') ∨ c = '_'
  · rw [if_pos h, if_pos ((wordChar_iff c).mpr h)]
  · rw [if_neg h, if_neg (fun hb => h ((wordChar_iff c).mp hb))]
    decide

theorem lookup_cons_self {β : Type} (a : String) (v : β) (l : List (String × β)) :
    List.lookup a ((a, v) :: l) = some v := by
  simp [List.lookup]

theorem lookup_map_snd {β γ : Type} (a : String) (g : β → γ) (l : List (String × β)) :
    List.lookup a (l.map fun e => (e.1, g e.2)) = (List.lookup a l).map g := by
  induction l with
  | nil => simp [List.lookup]
  | cons e t ih => cases he : a == e.1 <;> simp [List.lookup, he, ih]

theorem countCreates_append (l₁ l₂ : List CallEvt) :
    countCreates (l₁ ++ l₂) = countCreates l₁ + countCreates l₂ := by
  simp [countCreates, List.countP_append]

theorem head?_dropWhile_not (p : Char → Bool) (l : List Char) (c : Char)
    (h : (l.dropWhile p).head? = some c) : p c = false := by
  induction l with
  | nil => simp [List.dropWhile] at h
  | cons a t ih =>
    rw [List.dropWhile_cons] at h
    by_cases hp : p a
    · rw [if_pos hp] at h; exact ih h
    · rw [if_neg hp] at h
      simp only [List.head?_cons, Option.some.injEq] at h
      subst h; exact Bool.eq_false_iff.mpr hp

theorem strip_getLast_not_ws (s : String) (c : Char)
    (h : (pyStrip s).data.getLast? = some c) : pyIsSpace c = false := by
  unfold pyStrip at h
  rw [List.getLast?_reverse] at h
  exact head?_dropWhile_not _ _ _ h

theorem strip_head_not_ws (s : String) (c : Char)
    (h : (pyStrip s).data.head? = some c) : pyIsSpace c = false := by
  unfold pyStrip at h
  rw [List.head?_reverse] at h
  set A := s.data.dropWhile pyIsSpace with hA
  obtain ⟨t, ht⟩ := List.dropWhile_suffix (l := A.reverse) pyIsSpace
  set B := A.reverse.dropWhile pyIsSpace with hB
  cases hBn : B with
  | nil => rw [hBn] at h; simp at h
  | cons b bs =>
    have : B.getLast? = A.reverse.getLast? := by
      rw [← ht, List.getLast?_append_of_ne_nil]
      rw [hBn]; exact List.cons_ne_nil b bs
    rw [this, List.getLast?_reverse] at h
    exact head?_dropWhile_not _ _ _ h

theorem strip_of_all_ws (s : String) (h : s.data.all pyIsSpace = true) :
    pyStrip s = "" := by
  unfold pyStrip
  have hA : s.data.dropWhile pyIsSpace = [] := by
    rw [List.dropWhile_eq_nil_iff]
    intro x hx
    exact List.all_eq_true.mp h x hx
  rw [hA]
  rfl

/-! ## Claim theorems -/

/-- C1: the claim says that for an input whose longer dimension exceeds 512
the static converter's output longer edge equals exactly 512.  The code
computes int(w * (512.0 / w)) with binary64 floats, and for w = 561 that
product rounds to 511.99999999999994, which int() truncates to 511: a
561 × 100 image is converted to 511 × 91, longer edge 511 ≠ 512. -/
theorem C1_longer_edge_511_at_561 :
    512 < Nat.max 561 100 ∧
    image_sticker_dims 561 100 = (511, 91) ∧
    Nat.max (image_sticker_dims 561 100).1 (image_sticker_dims 561 100).2 ≠ 512 := by
  refine ⟨by decide, by decide, by decide⟩

/-- C2: the transcoder invocation does strip audio (-an), truncate to 3
seconds (-t 3) and resample to 30fps, but its scale filter caps only the
WIDTH at 512: for a portrait 300 × 900 input the filter output is 300 × 900
- the longer dimension stays 900 > 512, contradicting the claim that the
output longer dimension is at most 512. -/
theorem C2_portrait_height_exceeds_512 :
    ("-an" ∈ ffmpeg_cmd "ffmpeg" "in.bin" "out.webm") ∧
    List.IsInfix ["-t", "3"] (ffmpeg_cmd "ffmpeg" "in.bin" "out.webm") ∧
    ("scale='min(512,iw)':-2:force_original_aspect_ratio=decrease,fps=30"
      ∈ ffmpeg_cmd "ffmpeg" "in.bin" "out.webm") ∧
    ffmpegScaleOutput 300 900 = (300, 900) ∧
    512 < Nat.max (ffmpegScaleOutput 300 900).1 (ffmpegScaleOutput 300 900).2 := by
  refine ⟨by decide, ⟨["ffmpeg", "-y", "-i", "in.bin", "-an"], ?_⟩, by decide, by decide, by decide⟩
  exact ⟨["-vf", "scale='min(512,iw)':-2:force_original_aspect_ratio=decrease,fps=30",
    "-c:v", "libvpx-vp9", "-b:v", "420k", "-crf", "32", "-deadline", "realtime",
    "out.webm"], rfl⟩

/-- C4 (counterexample): for the race-losing schedule - lookup raises
not-found, create then raises the platform's already-exists conflict -
get_or_create_set returns the error instead of absorbing it and returning
the resolved name, refuting the claim that the failure is absorbed. -/
theorem C4_conflict_not_absorbed :
    (get_or_create_set raceLoser ⟨some "Alice", 7, some "Alice"⟩ "StickBot" Kind.static ()).1
        = Except.error ApiError.alreadyExists ∧
    (get_or_create_set raceLoser ⟨some "Alice", 7, some "Alice"⟩ "StickBot" Kind.static ()).1
        ≠ Except.ok (set_name_of ⟨some "Alice", 7, some "Alice"⟩ "StickBot" Kind.static,
                     set_title_of ⟨some "Alice", 7, some "Alice"⟩ Kind.static) := by
  refine ⟨by decide, by decide⟩

/-- C4 (amended): when the lookup raises and the create-collection call then
fails - in particular with the already-exists conflict of a lost creation
race - get_or_create_set does NOT absorb the create failure: the error
propagates to the caller unchanged (the source wraps only the lookup and the
placeholder cleanup in try/except, not the create call). -/
theorem C4_create_failure_propagates {σ : Type} (P : PlatformOps σ) (u : UserT)
    (b : String) (k : Kind) (st st1 st2 : σ) (e₁ e₂ : ApiError)
    (hl : P.getStickerSet (set_name_of u b k) st = (Except.error e₁, st1))
    (hc : P.createNewStickerSet (set_name_of u b k) (set_title_of u k) k st1
        = (Except.error e₂, st2)) :
    get_or_create_set P u b k st = (Except.error e₂, st2) := by
  have h1 : get_or_create_set P u b k st = create_path P u b k st1 := by
    unfold get_or_create_set
    dsimp only
    rw [hl]
  rw [h1]
  unfold create_path
  dsimp only
  rw [hc]

/-- Witness for C4_create_failure_propagates at a concrete platform whose
lookup fails transiently and whose create call reports a conflict. -/
theorem C4_create_failure_propagates_witness :
    get_or_create_set flakyPlatform ⟨none, 9, none⟩ "StickBot" Kind.video ()
      = (Except.error (ApiError.other "conflict"), ()) :=
  C4_create_failure_propagates flakyPlatform ⟨none, 9, none⟩ "StickBot" Kind.video
    () () () (ApiError.other "network timeout") (ApiError.other "conflict") rfl rfl

/-- C6: whatever error the lookup raises - genuine not-found or any other
failure - get_or_create_set treats the collection as nonexistent and falls
through to the creation block create_path; the lookup error itself is
discarded (the continuation does not depend on it) and is never returned to
the caller. -/
theorem C6_lookup_failure_falls_through {σ : Type} (P : PlatformOps σ) (u : UserT)
    (b : String) (k : Kind) (st st1 : σ) (e : ApiError)
    (hl : P.getStickerSet (set_name_of u b k) st = (Except.error e, st1)) :
    get_or_create_set P u b k st = create_path P u b k st1 := by
  unfold get_or_create_set
  dsimp only
  rw [hl]

/-- Witness for C6_lookup_failure_falls_through: a platform whose lookup
raises a transient network error still proceeds to the creation path. -/
theorem C6_lookup_failure_falls_through_witness :
    get_or_create_set flakyPlatform ⟨some "bob", 3, none⟩ "B" Kind.static ()
      = create_path flakyPlatform ⟨some "bob", 3, none⟩ "B" Kind.static () :=
  C6_lookup_failure_falls_through flakyPlatform ⟨some "bob", 3, none⟩ "B" Kind.static
    () () (ApiError.other "network timeout") rfl

/-- C7: the scoped temporary directory of video_to_sticker_webm is released
on every exit path - after the run no temp directory is live, whether the
transcode succeeded, exited nonzero, or produced no output file - and when
the transcoder binary is not resolvable the function fails with the
FFmpeg-not-found error before any filesystem activity, so no temporary files
are ever created. -/
theorem C7_temp_resources_released (env : TranscodeEnv) :
    liveDirs (video_to_sticker_webm env).2 = [] ∧
    (env.ffmpegFound = false →
      (video_to_sticker_webm env).2 = [] ∧
      (video_to_sticker_webm env).1
        = Except.error (BotError.runtimeError ffmpegMissingMsg)) := by
  obtain ⟨found, rc, outEx, out, err⟩ := env
  cases found
  · exact ⟨rfl, fun _ => ⟨rfl, rfl⟩⟩
  · refine ⟨?_, fun h => by simp at h⟩
    by_cases hrc : rc ≠ 0 ∨ outEx = false <;>
      simp [video_to_sticker_webm, withTempDir, liveDirs, hrc]

/-- Witness for C7_temp_resources_released: the transcoder binary is absent,
the request fails with the FFmpeg-not-found error and the filesystem trace is
empty. -/
theorem C7_temp_resources_released_witness :
    (video_to_sticker_webm ⟨false, 0, true, [], ""⟩).2 = [] ∧
    (video_to_sticker_webm ⟨false, 0, true, [], ""⟩).1
      = Except.error (BotError.runtimeError ffmpegMissingMsg) :=
  (C7_temp_resources_released ⟨false, 0, true, [], ""⟩).2 rfl

/-- Evaluation of get_or_create_set on the honest platform when the resolved
name already exists: pure lookup, the state is unchanged and the only call
made is the lookup. -/
theorem ensure_found (u : UserT) (b : String) (k : Kind) (st : PlatState)
    (log : List CallEvt) (fids : List ℕ)
    (hx : st.sets.lookup (set_name_of u b k) = some fids) :
    get_or_create_set honest u b k (st, log)
      = (Except.ok (set_name_of u b k, set_title_of u k),
         (st, log ++ [CallEvt.get (set_name_of u b k)])) := by
  unfold get_or_create_set
  dsimp only
  have hg : honest.getStickerSet (set_name_of u b k) (st, log)
      = (Except.ok ⟨fids⟩, (st, log ++ [CallEvt.get (set_name_of u b k)])) := by
    simp [honest, hx]
  rw [hg]

/-- Evaluation of get_or_create_set on the honest platform when the resolved
name does not exist: the set is created with one placeholder sticker which is
then fetched and deleted, leaving the set registered and empty; the calls
made are lookup, create, re-fetch, delete. -/
theorem ensure_missing (u : UserT) (b : String) (k : Kind) (st : PlatState)
    (log : List CallEvt)
    (hx : st.sets.lookup (set_name_of u b k) = none) :
    get_or_create_set honest u b k (st, log)
      = (Except.ok (set_name_of u b k, set_title_of u k),
         (⟨(set_name_of u b k, []) ::
             st.sets.map (fun e => (e.1, e.2.filter (· ≠ st.nextId))), st.nextId + 1⟩,
          log ++ [CallEvt.get (set_name_of u b k), CallEvt.create (set_name_of u b k),
                  CallEvt.get (set_name_of u b k), CallEvt.del st.nextId])) := by
  unfold get_or_create_set
  dsimp only
  have hg : honest.getStickerSet (set_name_of u b k) (st, log)
      = (Except.error ApiError.notFound,
         (st, log ++ [CallEvt.get (set_name_of u b k)])) := by
    simp [honest, hx]
  rw [hg]
  unfold create_path
  dsimp only
  have hc : honest.createNewStickerSet (set_name_of u b k) (set_title_of u k) k
        (st, log ++ [CallEvt.get (set_name_of u b k)])
      = (Except.ok (),
         (⟨(set_name_of u b k, [st.nextId]) :: st.sets, st.nextId + 1⟩,
          log ++ [CallEvt.get (set_name_of u b k), CallEvt.create (set_name_of u b k)])) := by
    simp [honest, hx]
  rw [hc]
  dsimp only
  have hg2 : honest.getStickerSet (set_name_of u b k)
        (⟨(set_name_of u b k, [st.nextId]) :: st.sets, st.nextId + 1⟩,
         log ++ [CallEvt.get (set_name_of u b k), CallEvt.create (set_name_of u b k)])
      = (Except.ok ⟨[st.nextId]⟩,
         (⟨(set_name_of u b k, [st.nextId]) :: st.sets, st.nextId + 1⟩,
          log ++ [CallEvt.get (set_name_of u b k), CallEvt.create (set_name_of u b k),
                  CallEvt.get (set_name_of u b k)])) := by
    simp [honest, lookup_cons_self]
  rw [hg2]
  dsimp only
  unfold honest
  dsimp only
  simp

/-- C3: on the honest platform, get_or_create_set is idempotent: the first
call returns the resolved (name, title); an immediately repeated call for the
same owner and kind returns the same result, leaves the platform state
exactly as it was, performs one single call (the lookup) and no mutating
call; across both calls the create-collection call happens at most once. -/
theorem C3_ensure_idempotent (u : UserT) (b : String) (k : Kind)
    (st : PlatState) (log : List CallEvt) :
    (get_or_create_set honest u b k (st, log)).1
      = Except.ok (set_name_of u b k, set_title_of u k)
    ∧ (get_or_create_set honest u b k ((get_or_create_set honest u b k (st, log)).2)).1
      = (get_or_create_set honest u b k (st, log)).1
    ∧ (get_or_create_set honest u b k ((get_or_create_set honest u b k (st, log)).2)).2.1
      = (get_or_create_set honest u b k (st, log)).2.1
    ∧ (get_or_create_set honest u b k ((get_or_create_set honest u b k (st, log)).2)).2.2
      = (get_or_create_set honest u b k (st, log)).2.2
          ++ [CallEvt.get (set_name_of u b k)]
    ∧ countCreates
        (get_or_create_set honest u b k ((get_or_create_set honest u b k (st, log)).2)).2.2
      ≤ countCreates log + 1 := by
  cases hx : st.sets.lookup (set_name_of u b k) with
  | some fids =>
    rw [ensure_found u b k st log fids hx]
    dsimp only
    rw [ensure_found u b k st (log ++ [CallEvt.get (set_name_of u b k)]) fids hx]
    refine ⟨rfl, rfl, rfl, rfl, ?_⟩
    simp [countCreates_append, countCreates]
  | none =>
    rw [ensure_missing u b k st log hx]
    dsimp only
    rw [ensure_found u b k
      ⟨(set_name_of u b k, []) ::
          st.sets.map (fun e => (e.1, e.2.filter (· ≠ st.nextId))), st.nextId + 1⟩
      (log ++ [CallEvt.get (set_name_of u b k), CallEvt.create (set_name_of u b k),
               CallEvt.get (set_name_of u b k), CallEvt.del st.nextId])
      [] (lookup_cons_self _ _ _)]
    refine ⟨rfl, rfl, rfl, rfl, ?_⟩
    simp [countCreates_append, countCreates]

theorem pyOr_some_empty (s : String) : pyOr (some s) "" = s := by
  unfold pyOr
  by_cases h : s = "" <;> simp [h]

/-- C5: the resolved collection name is the sanitized owner token, then the
kind suffix, then a by-bot suffix.  Sanitization maps, character by
character, everything outside [A-Za-z0-9_] to an underscore and lower-cases
the rest; an empty handle becomes user followed by the owner id.  In
particular sanitize("My.Bot!", 42) is "my_bot_" and the static name under
bot handle "StickBot" is "my_bot__static_by_StickBot". -/
theorem C5_resolved_name (username : String) (uid : ℕ) (b : String) (k : Kind) :
    set_name_of ⟨some username, uid, none⟩ b k
      = sanitize_username username uid
          ++ (if k = Kind.static then "_static" else "_video") ++ "_by_" ++ b
    ∧ (username ≠ "" →
        (sanitize_username username uid).data = username.data.map specNameChar)
    ∧ sanitize_username "" uid = "user" ++ toString uid
    ∧ sanitize_username "My.Bot!" 42 = "my_bot_"
    ∧ set_name_of ⟨some "My.Bot!", 42, none⟩ "StickBot" Kind.static
      = "my_bot__static_by_StickBot" := by
  refine ⟨?_, ?_, rfl, by decide, by decide⟩
  · unfold set_name_of pyOr
    dsimp only
    by_cases hu : username = ""
    · rw [if_pos hu, hu]
      cases k <;> simp [STATIC_SUFFIX, VIDEO_SUFFIX]
    · rw [if_neg hu]
      cases k <;> simp [STATIC_SUFFIX, VIDEO_SUFFIX]
  · intro hu
    unfold sanitize_username
    rw [if_neg hu]
    unfold pyLower
    dsimp only
    rw [List.map_map]
    congr 1
    funext c
    exact nameChar_agree c

/-- Witness for C5_resolved_name with a nonempty handle. -/
theorem C5_resolved_name_witness :
    ("Ab.C" : String) ≠ "" ∧
    (sanitize_username "Ab.C" 5).data = "Ab.C".data.map specNameChar :=
  ⟨by decide, (C5_resolved_name "Ab.C" 5 "X" Kind.static).2.1 (by decide)⟩

/-- C8 (counterexample): the tag rule is applied to the stripped caption,
not the raw one.  The raw caption of one letter followed by ten spaces has
length 11 > 10, so the claim demands the default tag, but the code strips it
to "a" and uses that; and the raw caption " x" (2 chars, nonempty) is NOT
used verbatim: the code uses the stripped "x". -/
theorem C8_raw_caption_counterexample :
    10 < pyLen "a          "
    ∧ emoji_for (some "a          ") = "a"
    ∧ ("a" : String) ≠ DEFAULT_EMOJI
    ∧ (" x" : String) ≠ "" ∧ pyLen " x" ≤ 10
    ∧ emoji_for (some " x") = "x"
    ∧ ("x" : String) ≠ " x" := by
  decide

/-- C8 (amended): the tag rule is applied to the whitespace-trimmed caption:
the default tag when the trimmed caption is empty or longer than 10
characters, and the trimmed caption - not the raw caption - when it is
nonempty and at most 10 characters. -/
theorem C8_tag_rule_on_trimmed (c : Option String) :
    (pyStrip (pyOr c "") = "" → emoji_for c = DEFAULT_EMOJI)
    ∧ (10 < pyLen (pyStrip (pyOr c "")) → emoji_for c = DEFAULT_EMOJI)
    ∧ (pyStrip (pyOr c "") ≠ "" → pyLen (pyStrip (pyOr c "")) ≤ 10 →
        emoji_for c = pyStrip (pyOr c "")) := by
  unfold emoji_for
  dsimp only
  refine ⟨fun h => ?_, fun h => ?_, fun h1 h2 => ?_⟩
  · rw [if_neg (fun hco => hco.1 h)]
  · rw [if_neg (fun hco => absurd hco.2 (by omega))]
  · rw [if_pos ⟨h1, h2⟩]

/-- Witness for C8_tag_rule_on_trimmed: a padded caption is used trimmed. -/
theorem C8_tag_rule_on_trimmed_witness :
    emoji_for (some "  hello  ") = pyStrip (pyOr (some "  hello  ") "") :=
  (C8_tag_rule_on_trimmed (some "  hello  ")).2.2 (by decide) (by decide)

/-- C9: a message carrying none of photo, animation, video, document makes
tg_download_to_bytes fail with the unsupported-message error, and that error
is distinct from every other error bot.py raises (no-message, transcoder
missing, and every transcoder-failure message). -/
theorem C9_unsupported_media (m : Msg) (h1 : m.photo = []) (h2 : m.animation = none)
    (h3 : m.video = none) (h4 : m.document = none) :
    tg_download_to_bytes (some m)
      = Except.error (BotError.runtimeError unsupportedMediaMsg)
    ∧ unsupportedMediaMsg ≠ noMessageMsg
    ∧ unsupportedMediaMsg ≠ ffmpegMissingMsg
    ∧ ∀ s : String, BotError.runtimeError unsupportedMediaMsg
        ≠ BotError.runtimeError ("FFmpeg failed: " ++ s) := by
  refine ⟨?_, by decide, by decide, ?_⟩
  · unfold tg_download_to_bytes
    dsimp only
    rw [h2, h3, h4]
    simp [h1]
  · intro s hs
    injection hs with hmsg
    have hd : unsupportedMediaMsg.data = ("FFmpeg failed: ").data ++ s.data := by
      have h5 := congrArg String.data hmsg
      rwa [String.data_append] at h5
    have h6 : some 'U' = some 'F' := by
      calc some 'U' = unsupportedMediaMsg.data.head? := rfl
        _ = (("FFmpeg failed: ").data ++ s.data).head? := by rw [hd]
        _ = some 'F' := rfl
    exact absurd h6 (by decide)

/-- Witness for C9_unsupported_media at the empty payload. -/
theorem C9_unsupported_media_witness :
    tg_download_to_bytes (some ⟨[], none, none, none, some "hi"⟩)
      = Except.error (BotError.runtimeError unsupportedMediaMsg) :=
  (C9_unsupported_media ⟨[], none, none, none, some "hi"⟩ rfl rfl rfl rfl).1

/-- C10: the caption is whitespace-trimmed before the tag rule: a
whitespace-only caption yields the default tag; the produced tag is always
either the default or the trimmed caption; a caption whose raw length
exceeds 10 but whose trimmed length is within 10 is used (trimmed); and the
tag never carries leading or trailing whitespace. -/
theorem C10_trimmed_before_rule (s : String) :
    (s.data.all pyIsSpace = true → emoji_for (some s) = DEFAULT_EMOJI)
    ∧ (emoji_for (some s) = DEFAULT_EMOJI ∨ emoji_for (some s) = pyStrip s)
    ∧ (10 < pyLen s → pyStrip s ≠ "" → pyLen (pyStrip s) ≤ 10 →
        emoji_for (some s) = pyStrip s)
    ∧ (∀ c2, (emoji_for (some s)).data.head? = some c2 → pyIsSpace c2 = false)
    ∧ (∀ c2, (emoji_for (some s)).data.getLast? = some c2 → pyIsSpace c2 = false) := by
  unfold emoji_for
  dsimp only
  rw [pyOr_some_empty]
  by_cases hc : pyStrip s ≠ "" ∧ pyLen (pyStrip s) ≤ 10
  · rw [if_pos hc]
    refine ⟨fun hws => absurd (strip_of_all_ws s hws) hc.1, Or.inr rfl,
      fun _ _ _ => rfl,
      fun c2 h => strip_head_not_ws s c2 h,
      fun c2 h => strip_getLast_not_ws s c2 h⟩
  · rw [if_neg hc]
    refine ⟨fun _ => rfl, Or.inl rfl, fun _ hne hle => absurd ⟨hne, hle⟩ hc,
      fun c2 h => ?_, fun c2 h => ?_⟩
    · have he : (DEFAULT_EMOJI : String).data.head? = some '🧩' := rfl
      rw [he] at h
      injection h with h7
      rw [← h7]
      decide
    · have he : (DEFAULT_EMOJI : String).data.getLast? = some '🧩' := rfl
      rw [he] at h
      injection h with h7
      rw [← h7]
      decide

/-- Witness for C10_trimmed_before_rule: raw length 13, trimmed length 7. -/
theorem C10_trimmed_before_rule_witness :
    emoji_for (some "   1234567   ") = pyStrip "   1234567   " :=
  (C10_trimmed_before_rule "   1234567   ").2.2.1 (by decide) (by decide) (by decide)

end StickerBot
